import Mathlib

/-!
Verification development for the ShopEase CRUD API
(Express routers over four PostgreSQL tables: product, country,
item_type, sales_channel).

The routers are embedded shallowly: each Express handler becomes a Lean
function from the current table state (and an optional injected
driver-level fault, standing for a failing `db.query` call) to the new
table state and the HTTP response.  The SQL statements the handlers
issue are single-row/whole-table operations whose semantics are modelled
directly on lists of rows.  JSON bodies produced by the handlers are
flat objects of scalar values, or arrays of such objects, so the JSON
type here covers exactly those shapes.
-/

namespace ShopEase

/-- A scalar value as stored in a table column or serialized into a JSON
response: SQL `NULL` (also the image of JavaScript `undefined` when a
destructured body field is absent), a string, or an integer. -/
inductive SqlValue where
  | null
  | str (s : String)
  | int (n : Int)
  deriving DecidableEq

/-- A flat JSON object: an association list from field names to scalar
values (every object these handlers emit has this shape). -/
abbrev JObj := List (String × SqlValue)

/-- A JSON response body: a flat object or an array of flat objects. -/
inductive Json where
  | obj (fields : JObj)
  | arr (elems : List JObj)
  deriving DecidableEq

/-- An HTTP response: a status code and a JSON body. -/
structure Response where
  status : Nat
  body : Json
  deriving DecidableEq

/-- `res.status(404).json(\x7b message: msg \x7d)` and friends. -/
def msgObj (msg : String) : Json :=
  Json.obj [("message", SqlValue.str msg)]

/-- A fault raised inside `db.query`: either the text-to-integer cast of
a path parameter failed inside the database, or the driver itself failed
(bad connection, constraint violation, ...) with some detail. -/
inductive DbError where
  | castFailure
  | driver (detail : String)
  deriving DecidableEq

/-- A table row: the integer primary-key value plus the non-key columns
as an association list from column name to stored value. -/
structure Row where
  id : Int
  vals : JObj
  deriving DecidableEq

/-- One database table: the next value of the id-generating sequence and
the stored rows. -/
structure Table where
  nextId : Int
  rows : List Row
  deriving DecidableEq

/-- The static description of one resource, read off the route file:
table/column names, which columns the INSERT and the UPDATE statement
mention, and the two literal messages the handlers use. -/
structure Entity where
  tableName : String
  idCol : String
  cols : List String
  insertCols : List String
  updateCols : List String
  notFoundMsg : String
  deletedMsg : String

/-- `const \x7b product_name \x7d = req.body` followed by use as a query
parameter: a field missing from the body destructures to `undefined`,
which the driver sends as SQL `NULL`. -/
def bodyGet (body : JObj) (c : String) : SqlValue :=
  (body.lookup c).getD SqlValue.null

/-- The value a row holds in a given column (`NULL` when absent). -/
def rowGet (r : Row) (c : String) : SqlValue :=
  (r.vals.lookup c).getD SqlValue.null

/-- Serialization of a row as the handlers return it: `RETURNING *` /
`SELECT *` yields the id column followed by the other columns. -/
def rowToObj (e : Entity) (r : Row) : JObj :=
  (e.idCol, SqlValue.int r.id) :: r.vals

/-- Comparison used by `ORDER BY <id column>`. -/
def rowLe (a b : Row) : Prop := a.id ≤ b.id

instance : DecidableRel rowLe := fun a b => inferInstanceAs (Decidable (a.id ≤ b.id))

instance : IsTotal Row rowLe := ⟨fun a b => Int.le_total a.id b.id⟩

instance : IsTrans Row rowLe := ⟨fun _ _ _ hab hbc => le_trans hab hbc⟩

/-- `SELECT * FROM <table> ORDER BY <id column>`: the stored rows in
ascending primary-key order. -/
def selectAllOrdered (t : Table) : List Row :=
  t.rows.insertionSort rowLe

/-- Decimal digit value of a character, if it is a digit. -/
def digitVal? (c : Char) : Option Nat :=
  if '0' ≤ c ∧ c ≤ '9' then some (c.toNat - '0'.toNat) else none

/-- Whitespace the integer cast skips before and after the number
(C `isspace`: space, tab, newline, vertical tab, form feed, carriage
return). -/
def isCastSpace (c : Char) : Bool :=
  c == ' ' || c == '\t' || c == '\n' || c == '\x0b' || c == '\x0c' || c == '\r'

/-- Drop leading cast-whitespace characters. -/
def dropSpaces : List Char → List Char
  | [] => []
  | c :: cs => if isCastSpace c then dropSpaces cs else c :: cs

/-- Greedily read a leading decimal digit run, accumulating its value
and returning the unconsumed rest. -/
def readDigits : List Char → Nat → Nat × List Char
  | [], acc => (acc, [])
  | c :: cs, acc =>
    match digitVal? c with
    | some d => readDigits cs (acc * 10 + d)
    | none => (acc, c :: cs)

/-- Digit part of the integer cast, after an optional sign has been
consumed (`neg` records a minus sign): at least one digit, then only
trailing whitespace, and the value must fit the 32-bit `integer`
bounds; anything else is a cast error. -/
def castDigits (cs : List Char) (neg : Bool) : Option Int :=
  match cs with
  | [] => none
  | c :: _ =>
    match digitVal? c with
    | none => none
    | some _ =>
      let p := readDigits cs 0
      if dropSpaces p.2 = [] then
        if neg then
          if p.1 ≤ 2147483648 then some (-(p.1 : Int)) else none
        else
          if p.1 ≤ 2147483647 then some ((p.1 : Int)) else none
      else none

/-- The database-side cast of a textual query parameter to the bounded
`integer` column type (`pg_strtoint32`): optional surrounding
whitespace, an optional `+` or `-` sign, at least one decimal digit,
and a range check against the 32-bit bounds; any other text, and any
out-of-range value, raises the cast error (`none`). -/
def castTextToInt (s : String) : Option Int :=
  match dropSpaces s.data with
  | [] => none
  | '+' :: rest => castDigits rest false
  | '-' :: rest => castDigits rest true
  | cs => castDigits cs false

/-- The driver-side cast of a textual query parameter compared against
an integer column: fails with a data-access fault when the text is not
an integer literal. -/
def parseIdParam (s : String) : Except DbError Int :=
  match castTextToInt s with
  | some n => Except.ok n
  | none => Except.error DbError.castFailure

/-- Entry into `db.query`: when a driver-level fault is injected, the
call raises it before any result is produced. -/
def dbCall (fault : Option DbError) : Except DbError Unit :=
  match fault with
  | some e => Except.error e
  | none => Except.ok ()

/-- The parameterized statement a handler issues: the SQL text and the
parameter list, each parameter exactly the string the handler passed. -/
structure SqlQuery where
  sql : String
  params : List String
  deriving DecidableEq

/-- The query issued by the get-by-id handler, line for line:
`db.query('SELECT * FROM <t> WHERE <id> = $1', [req.params.id])`. -/
def getByIdQuery (e : Entity) (idParam : String) : SqlQuery :=
  { sql := "SELECT * FROM " ++ e.tableName ++ " WHERE " ++ e.idCol ++ " = $1"
    params := [idParam] }

/-- `router.get('/', ...)`: unfiltered ordered select, rows as a JSON
array. -/
def listHandler (e : Entity) (fault : Option DbError) (t : Table) :
    Except DbError (Table × Response) :=
  match dbCall fault with
  | Except.error err => Except.error err
  | Except.ok _ =>
    Except.ok (t, ⟨200, Json.arr ((selectAllOrdered t).map (rowToObj e))⟩)

/-- `router.get('/:id', ...)`: parameterized select; `rows.length === 0`
yields the resource-specific 404, otherwise `rows[0]` is returned. -/
def getHandler (e : Entity) (fault : Option DbError) (idStr : String) (t : Table) :
    Except DbError (Table × Response) :=
  match dbCall fault with
  | Except.error err => Except.error err
  | Except.ok _ =>
    match parseIdParam ((getByIdQuery e idStr).params.headD "") with
    | Except.error err => Except.error err
    | Except.ok n =>
      match t.rows.filter (fun r => r.id == n) with
      | [] => Except.ok (t, ⟨404, msgObj e.notFoundMsg⟩)
      | r :: _ => Except.ok (t, ⟨200, Json.obj (rowToObj e r)⟩)

/-- The row built by `INSERT INTO <t> (<insert cols>) VALUES ... RETURNING *`:
the generated id, the named columns from the body parameters, and the
database default `NULL` for every other column. -/
def insertedRow (e : Entity) (body : JObj) (newId : Int) : Row :=
  { id := newId
    vals := e.cols.map fun c =>
      (c, if c ∈ e.insertCols then bodyGet body c else SqlValue.null) }

/-- `router.post('/', ...)`: insert returning the new row, status 201. -/
def createHandler (e : Entity) (fault : Option DbError) (body : JObj) (t : Table) :
    Except DbError (Table × Response) :=
  match dbCall fault with
  | Except.error err => Except.error err
  | Except.ok _ =>
    Except.ok ({ nextId := t.nextId + 1, rows := t.rows ++ [insertedRow e body t.nextId] },
      ⟨201, Json.obj (rowToObj e (insertedRow e body t.nextId))⟩)

/-- The effect of `UPDATE ... SET <update cols> = ... WHERE <id> = $n`
on a matching row: every column the SET clause names takes the body
value, every other column keeps its stored value, the id is unchanged. -/
def updatedRow (e : Entity) (body : JObj) (r : Row) : Row :=
  { id := r.id
    vals := e.cols.map fun c =>
      (c, if c ∈ e.updateCols then bodyGet body c else rowGet r c) }

/-- The rows of a table after `UPDATE ... WHERE <id> = $n`: matching
rows rewritten in place, all others untouched. -/
def updateRows (e : Entity) (body : JObj) (n : Int) (rows : List Row) : List Row :=
  rows.map fun r => if r.id == n then updatedRow e body r else r

/-- `router.put('/:id', ...)`: update-by-id returning the post-update
rows; `rows.length === 0` yields the 404, otherwise `rows[0]`. -/
def updateHandler (e : Entity) (fault : Option DbError) (idStr : String) (body : JObj)
    (t : Table) : Except DbError (Table × Response) :=
  match dbCall fault with
  | Except.error err => Except.error err
  | Except.ok _ =>
    match parseIdParam idStr with
    | Except.error err => Except.error err
    | Except.ok n =>
      match (updateRows e body n t.rows).filter (fun r => r.id == n) with
      | [] => Except.ok ({ t with rows := updateRows e body n t.rows },
          ⟨404, msgObj e.notFoundMsg⟩)
      | r :: _ => Except.ok ({ t with rows := updateRows e body n t.rows },
          ⟨200, Json.obj (rowToObj e r)⟩)

/-- `router.delete('/:id', ...)`: delete-by-id returning the deleted
rows; `rows.length === 0` yields the 404, otherwise a success message
(not the deleted row). -/
def deleteHandler (e : Entity) (fault : Option DbError) (idStr : String) (t : Table) :
    Except DbError (Table × Response) :=
  match dbCall fault with
  | Except.error err => Except.error err
  | Except.ok _ =>
    match parseIdParam idStr with
    | Except.error err => Except.error err
    | Except.ok n =>
      match t.rows.filter (fun r => r.id == n) with
      | [] => Except.ok (t, ⟨404, msgObj e.notFoundMsg⟩)
      | _ :: _ =>
        Except.ok ({ t with rows := t.rows.filter (fun r => !(r.id == n)) },
          ⟨200, msgObj e.deletedMsg⟩)

/-- The centralized fault boundary (`app.use((err, req, res, next) => ...)`):
one fixed generic response, carrying nothing of the fault. -/
def errorResponse : Response :=
  ⟨500, msgObj "Internal Server Error"⟩

/-- The `try/catch ... next(error)` wrapper around every handler body:
a fault leaves the table untouched and yields the boundary response. -/
def runHandler (t : Table) (act : Except DbError (Table × Response)) :
    Table × Response :=
  match act with
  | Except.ok r => r
  | Except.error _ => (t, errorResponse)

/-- `routes/product.js`.  The product table's non-key columns are
`product_name` and `price` (spec data model; the UPDATE statement names
both).  The INSERT names only `product_name`. -/
def productEntity : Entity :=
  { tableName := "product"
    idCol := "product_id"
    cols := ["product_name", "price"]
    insertCols := ["product_name"]
    updateCols := ["product_name", "price"]
    notFoundMsg := "Product not found"
    deletedMsg := "Product deleted successfully" }

/-- `routes/countries.js`. -/
def countryEntity : Entity :=
  { tableName := "country"
    idCol := "country_id"
    cols := ["country_name", "region_id"]
    insertCols := ["country_name", "region_id"]
    updateCols := ["country_name", "region_id"]
    notFoundMsg := "Country not found"
    deletedMsg := "Country deleted successfully" }

/-- `routes/itemTypes.js`. -/
def itemTypeEntity : Entity :=
  { tableName := "item_type"
    idCol := "item_type_id"
    cols := ["item_type_name"]
    insertCols := ["item_type_name"]
    updateCols := ["item_type_name"]
    notFoundMsg := "Item type not found"
    deletedMsg := "Item type deleted successfully" }

/-- `routes/sales_channel.js`. -/
def salesChannelEntity : Entity :=
  { tableName := "sales_channel"
    idCol := "channel_id"
    cols := ["channel_name"]
    insertCols := ["channel_name"]
    updateCols := ["channel_name"]
    notFoundMsg := "Sales channel not found"
    deletedMsg := "Sales channel deleted successfully" }

/-- The four mounted routers. -/
inductive Resource where
  | products
  | countries
  | itemTypes
  | salesChannels
  deriving DecidableEq

/-- HTTP method of a route registration. -/
inductive Method where
  | get
  | post
  | put
  | delete
  deriving DecidableEq

/-- Route path shape: `'/'` or `'/:id'`. -/
inductive Shape where
  | root
  | byId
  deriving DecidableEq

def Resource.entity : Resource → Entity
  | .products => productEntity
  | .countries => countryEntity
  | .itemTypes => itemTypeEntity
  | .salesChannels => salesChannelEntity

/-- The routes each router registers, read off the route files.  The
countries router registers no `get '/'` route: in `routes/countries.js`
the `// GET all countries` comment is followed by no handler. -/
def Resource.routes : Resource → List (Method × Shape)
  | .products =>
      [(.get, .root), (.get, .byId), (.post, .root), (.put, .byId), (.delete, .byId)]
  | .countries =>
      [(.get, .byId), (.post, .root), (.put, .byId), (.delete, .byId)]
  | .itemTypes =>
      [(.get, .root), (.get, .byId), (.post, .root), (.put, .byId), (.delete, .byId)]
  | .salesChannels =>
      [(.get, .root), (.get, .byId), (.post, .root), (.put, .byId), (.delete, .byId)]

/-- Whether a router has a handler registered for a method and shape. -/
def hasRoute (r : Resource) (m : Method) (s : Shape) : Prop :=
  (m, s) ∈ r.routes

instance (r : Resource) (m : Method) (s : Shape) : Decidable (hasRoute r m s) :=
  inferInstanceAs (Decidable ((m, s) ∈ r.routes))

/-- The whole database: one table per mounted resource. -/
structure DB where
  products : Table
  countries : Table
  itemTypes : Table
  salesChannels : Table
  deriving DecidableEq

def DB.get (db : DB) : Resource → Table
  | .products => db.products
  | .countries => db.countries
  | .itemTypes => db.itemTypes
  | .salesChannels => db.salesChannels

def DB.set (db : DB) : Resource → Table → DB
  | .products, t => { db with products := t }
  | .countries, t => { db with countries := t }
  | .itemTypes, t => { db with itemTypes := t }
  | .salesChannels, t => { db with salesChannels := t }

/-- An incoming API request, already split by the URL prefix that
`app.use('/api/...', router)` dispatches on. -/
inductive Request where
  | list (r : Resource)
  | getById (r : Resource) (idStr : String)
  | create (r : Resource) (body : JObj)
  | update (r : Resource) (idStr : String) (body : JObj)
  | deleteById (r : Resource) (idStr : String)
  deriving DecidableEq

/-- Outcome of dispatching one request: either some handler ran and a
response was produced, or no registered route matched and the request
falls through to the framework default (no handler of this codebase
runs). -/
inductive AppResult where
  | handled (db : DB) (resp : Response)
  | noRoute (db : DB)
  deriving DecidableEq

/-- Running one matched handler against its resource's table: the
handler's table goes back into the database, its response goes out. -/
def dispatchTable (db : DB) (r : Resource) (act : Except DbError (Table × Response)) :
    AppResult :=
  let p := runHandler (db.get r) act
  AppResult.handled (db.set r p.1) p.2

/-- Full dispatch of one request: route lookup in the target router,
then the matched handler run against the resource's table under the
`try/catch`/fault-boundary wrapper. -/
def handleRequest (fault : Option DbError) (req : Request) (db : DB) : AppResult :=
  match req with
  | .list r =>
      if hasRoute r .get .root then
        dispatchTable db r (listHandler r.entity fault (db.get r))
      else .noRoute db
  | .getById r idStr =>
      if hasRoute r .get .byId then
        dispatchTable db r (getHandler r.entity fault idStr (db.get r))
      else .noRoute db
  | .create r body =>
      if hasRoute r .post .root then
        dispatchTable db r (createHandler r.entity fault body (db.get r))
      else .noRoute db
  | .update r idStr body =>
      if hasRoute r .put .byId then
        dispatchTable db r (updateHandler r.entity fault idStr body (db.get r))
      else .noRoute db
  | .deleteById r idStr =>
      if hasRoute r .delete .byId then
        dispatchTable db r (deleteHandler r.entity fault idStr (db.get r))
      else .noRoute db

/-- A database of four empty tables, each id sequence at 1. -/
def emptyDB : DB :=
  { products := ⟨1, []⟩, countries := ⟨1, []⟩
    itemTypes := ⟨1, []⟩, salesChannels := ⟨1, []⟩ }

/-- The three operations every router registers under `'/:id'`. -/
inductive IdOp where
  | fetch
  | change (body : JObj)
  | remove
  deriving DecidableEq

/-- The request a given `'/:id'` operation corresponds to. -/
def IdOp.toRequest : IdOp → Resource → String → Request
  | .fetch, r, idStr => Request.getById r idStr
  | .change body, r, idStr => Request.update r idStr body
  | .remove, r, idStr => Request.deleteById r idStr

/-- Body of a `POST /api/products` request that also submits a price. -/
def widgetBody : JObj :=
  [("product_name", SqlValue.str "Widget"), ("price", SqlValue.int 5)]

/-- The stored product row that posting `widgetBody` creates: the
INSERT names only `product_name`, so `price` holds the database default
`NULL` whatever the body said. -/
def widgetRow : Row :=
  ⟨1, [("product_name", SqlValue.str "Widget"), ("price", SqlValue.null)]⟩

/-- The database state after posting `widgetBody` into `emptyDB`. -/
def dbAfterWidgetPost : DB :=
  { emptyDB with products := ⟨2, [widgetRow]⟩ }

theorem DB.get_set_self (db : DB) (r : Resource) (t : Table) :
    (db.set r t).get r = t := by
  cases r <;> rfl

theorem DB.get_set_ne (db : DB) (r r2 : Resource) (t : Table) (h : r2 ≠ r) :
    (db.set r t).get r2 = db.get r2 := by
  cases r <;> cases r2 <;> first | rfl | exact absurd rfl h

theorem DB.set_get_self (db : DB) (r : Resource) :
    db.set r (db.get r) = db := by
  cases r <;> rfl

theorem dispatchTable_ok (db : DB) (r : Resource) (t : Table) (resp : Response)
    (act : Except DbError (Table × Response)) (h : act = Except.ok (t, resp)) :
    dispatchTable db r act = AppResult.handled (db.set r t) resp := by
  subst h; rfl

theorem dispatchTable_error (db : DB) (r : Resource) (e : DbError)
    (act : Except DbError (Table × Response)) (h : act = Except.error e) :
    dispatchTable db r act = AppResult.handled db errorResponse := by
  subst h
  show AppResult.handled (db.set r (db.get r)) errorResponse = _
  rw [DB.set_get_self]

theorem listHandler_fault (e : Entity) (err : DbError) (t : Table) :
    listHandler e (some err) t = Except.error err := rfl

theorem getHandler_fault (e : Entity) (err : DbError) (idStr : String) (t : Table) :
    getHandler e (some err) idStr t = Except.error err := rfl

theorem createHandler_fault (e : Entity) (err : DbError) (body : JObj) (t : Table) :
    createHandler e (some err) body t = Except.error err := rfl

theorem updateHandler_fault (e : Entity) (err : DbError) (idStr : String) (body : JObj)
    (t : Table) : updateHandler e (some err) idStr body t = Except.error err := rfl

theorem deleteHandler_fault (e : Entity) (err : DbError) (idStr : String) (t : Table) :
    deleteHandler e (some err) idStr t = Except.error err := rfl

theorem updatedRow_id (e : Entity) (body : JObj) (r : Row) :
    (updatedRow e body r).id = r.id := rfl

theorem insertedRow_id (e : Entity) (body : JObj) (n : Int) :
    (insertedRow e body n).id = n := rfl

theorem lookup_map_self (cols : List String) (f : String → SqlValue) (c : String)
    (h : c ∈ cols) :
    (cols.map (fun c2 => (c2, f c2))).lookup c = some (f c) := by
  induction cols with
  | nil => cases h
  | cons a l ih =>
    rcases List.mem_cons.mp h with h2 | h2
    · subst h2
      simp [List.lookup]
    · by_cases hac : c = a
      · subst hac; simp [List.lookup]
      · have hb : (c == a) = false := beq_eq_false_iff_ne.mpr hac
        simp only [List.map_cons, List.lookup, hb]
        exact ih h2

theorem rowGet_updatedRow (e : Entity) (body : JObj) (r : Row) (c : String)
    (hc : c ∈ e.cols) :
    rowGet (updatedRow e body r) c =
      if c ∈ e.updateCols then bodyGet body c else rowGet r c := by
  show ((e.cols.map fun c2 =>
      (c2, if c2 ∈ e.updateCols then bodyGet body c2 else rowGet r c2)).lookup c).getD
        SqlValue.null = _
  rw [lookup_map_self e.cols _ c hc]
  rfl

theorem rowGet_insertedRow (e : Entity) (body : JObj) (n : Int) (c : String)
    (hc : c ∈ e.cols) :
    rowGet (insertedRow e body n) c =
      if c ∈ e.insertCols then bodyGet body c else SqlValue.null := by
  show ((e.cols.map fun c2 =>
      (c2, if c2 ∈ e.insertCols then bodyGet body c2 else SqlValue.null)).lookup c).getD
        SqlValue.null = _
  rw [lookup_map_self e.cols _ c hc]
  rfl

theorem filter_eq_nil_of_no_match (l : List Row) (n : Int)
    (h : ∀ row ∈ l, row.id ≠ n) :
    l.filter (fun x => x.id == n) = [] :=
  List.filter_eq_nil_iff.mpr fun row hrow => by
    simp only [beq_iff_eq]
    exact h row hrow

theorem filter_eq_single_of_pairwise (l : List Row) (row : Row) (n : Int)
    (hnd : l.Pairwise fun a b => a.id ≠ b.id) (hrow : row ∈ l) (hn : row.id = n) :
    l.filter (fun x => x.id == n) = [row] := by
  induction l with
  | nil => cases hrow
  | cons a l ih =>
    rw [List.pairwise_cons] at hnd
    rcases List.mem_cons.mp hrow with h2 | h2
    · subst h2
      rw [List.filter_cons_of_pos (by simp [beq_iff_eq, hn])]
      rw [filter_eq_nil_of_no_match l n
        (fun x hx hxn => hnd.1 x hx (hn.trans hxn.symm))]
    · have hane : a.id ≠ n := fun he => hnd.1 row h2 (he.trans hn.symm)
      rw [List.filter_cons_of_neg (by simp [beq_iff_eq]; exact hane)]
      exact ih hnd.2 h2

theorem updateRows_no_match (e : Entity) (body : JObj) (n : Int) (l : List Row) :
    (∀ x ∈ l, x.id ≠ n) → updateRows e body n l = l := by
  induction l with
  | nil => intro _; rfl
  | cons a l ih =>
    intro h
    show (if a.id == n then updatedRow e body a else a) :: updateRows e body n l = a :: l
    rw [if_neg (by simp only [beq_iff_eq]; exact h a (List.mem_cons_self a l)),
      ih fun x hx => h x (List.mem_cons_of_mem a hx)]

theorem updateRows_filter_single (e : Entity) (body : JObj) (l : List Row) (row : Row)
    (n : Int) (hnd : l.Pairwise fun a b => a.id ≠ b.id) (hrow : row ∈ l)
    (hn : row.id = n) :
    (updateRows e body n l).filter (fun x => x.id == n) = [updatedRow e body row] := by
  induction l with
  | nil => cases hrow
  | cons a l ih =>
    rw [List.pairwise_cons] at hnd
    rcases List.mem_cons.mp hrow with h2 | h2
    · subst h2
      show ((if row.id == n then updatedRow e body row else row) ::
        updateRows e body n l).filter (fun x => x.id == n) = _
      rw [if_pos (by simp [beq_iff_eq, hn]),
        List.filter_cons_of_pos (by simp [beq_iff_eq, updatedRow_id, hn]),
        updateRows_no_match e body n l
          (fun x hx hxn => hnd.1 x hx (hn.trans hxn.symm)),
        filter_eq_nil_of_no_match l n
          (fun x hx hxn => hnd.1 x hx (hn.trans hxn.symm))]
    · have hane : a.id ≠ n := fun he => hnd.1 row h2 (he.trans hn.symm)
      show ((if a.id == n then updatedRow e body a else a) ::
        updateRows e body n l).filter (fun x => x.id == n) = _
      rw [if_neg (by simp [beq_iff_eq]; exact hane),
        List.filter_cons_of_neg (by simp [beq_iff_eq]; exact hane)]
      exact ih hnd.2 h2

theorem updateRows_mem_of_match (e : Entity) (body : JObj) (n : Int) (l : List Row)
    (row : Row) (hrow : row ∈ l) (hn : row.id = n) :
    updatedRow e body row ∈ updateRows e body n l := by
  have h2 : (fun x => if x.id == n then updatedRow e body x else x) row =
      updatedRow e body row := by
    show (if row.id == n then updatedRow e body row else row) = _
    rw [if_pos (by simp only [beq_iff_eq]; exact hn)]
  rw [← h2]
  exact List.mem_map_of_mem _ hrow

theorem updateRows_filter_ne (e : Entity) (body : JObj) (n : Int) (l : List Row) :
    (updateRows e body n l).filter (fun x => !(x.id == n)) =
      l.filter (fun x => !(x.id == n)) := by
  induction l with
  | nil => rfl
  | cons a l ih =>
    show ((if a.id == n then updatedRow e body a else a) ::
      updateRows e body n l).filter (fun x => !(x.id == n)) = _
    by_cases ha : a.id = n
    · rw [if_pos (by simp [beq_iff_eq, ha]),
        List.filter_cons_of_neg (by simp [beq_iff_eq, updatedRow_id, ha]),
        List.filter_cons_of_neg (by simp [beq_iff_eq, ha]), ih]
    · rw [if_neg (by simp [beq_iff_eq]; exact ha),
        List.filter_cons_of_pos (by simp [beq_iff_eq]; exact ha),
        List.filter_cons_of_pos (by simp [beq_iff_eq]; exact ha), ih]

theorem filter_ne_idem (l : List Row) (n : Int) :
    (l.filter (fun x => !(x.id == n))).filter (fun x => !(x.id == n)) =
      l.filter (fun x => !(x.id == n)) :=
  List.filter_eq_self.mpr fun _ ha => (List.mem_filter.mp ha).2

theorem parseIdParam_ok (s : String) (n : Int) (h : castTextToInt s = some n) :
    parseIdParam s = Except.ok n := by
  unfold parseIdParam
  rw [h]

theorem hasRoute_get_byId (r : Resource) : hasRoute r .get .byId := by
  cases r <;> decide

theorem hasRoute_post_root (r : Resource) : hasRoute r .post .root := by
  cases r <;> decide

theorem hasRoute_put_byId (r : Resource) : hasRoute r .put .byId := by
  cases r <;> decide

theorem hasRoute_delete_byId (r : Resource) : hasRoute r .delete .byId := by
  cases r <;> decide

theorem handleRequest_getById (fault : Option DbError) (r : Resource) (idStr : String)
    (db : DB) :
    handleRequest fault (Request.getById r idStr) db =
      dispatchTable db r (getHandler r.entity fault idStr (db.get r)) := by
  simp only [handleRequest]
  rw [if_pos (hasRoute_get_byId r)]

theorem handleRequest_create (fault : Option DbError) (r : Resource) (body : JObj)
    (db : DB) :
    handleRequest fault (Request.create r body) db =
      dispatchTable db r (createHandler r.entity fault body (db.get r)) := by
  simp only [handleRequest]
  rw [if_pos (hasRoute_post_root r)]

theorem handleRequest_update (fault : Option DbError) (r : Resource) (idStr : String)
    (body : JObj) (db : DB) :
    handleRequest fault (Request.update r idStr body) db =
      dispatchTable db r (updateHandler r.entity fault idStr body (db.get r)) := by
  simp only [handleRequest]
  rw [if_pos (hasRoute_put_byId r)]

theorem handleRequest_deleteById (fault : Option DbError) (r : Resource) (idStr : String)
    (db : DB) :
    handleRequest fault (Request.deleteById r idStr) db =
      dispatchTable db r (deleteHandler r.entity fault idStr (db.get r)) := by
  simp only [handleRequest]
  rw [if_pos (hasRoute_delete_byId r)]

theorem getHandler_run (e : Entity) (idStr : String) (n : Int) (t : Table)
    (hid : castTextToInt idStr = some n) :
    getHandler e none idStr t =
      match t.rows.filter (fun x => x.id == n) with
      | [] => Except.ok (t, ⟨404, msgObj e.notFoundMsg⟩)
      | r :: _ => Except.ok (t, ⟨200, Json.obj (rowToObj e r)⟩) := by
  unfold getHandler
  rw [parseIdParam_ok ((getByIdQuery e idStr).params.headD "") n hid]
  rfl

theorem updateHandler_run (e : Entity) (idStr : String) (n : Int) (body : JObj)
    (t : Table) (hid : castTextToInt idStr = some n) :
    updateHandler e none idStr body t =
      match (updateRows e body n t.rows).filter (fun x => x.id == n) with
      | [] => Except.ok ({ t with rows := updateRows e body n t.rows },
          ⟨404, msgObj e.notFoundMsg⟩)
      | r :: _ => Except.ok ({ t with rows := updateRows e body n t.rows },
          ⟨200, Json.obj (rowToObj e r)⟩) := by
  unfold updateHandler
  rw [parseIdParam_ok idStr n hid]
  rfl

theorem deleteHandler_run (e : Entity) (idStr : String) (n : Int) (t : Table)
    (hid : castTextToInt idStr = some n) :
    deleteHandler e none idStr t =
      match t.rows.filter (fun x => x.id == n) with
      | [] => Except.ok (t, ⟨404, msgObj e.notFoundMsg⟩)
      | _ :: _ =>
        Except.ok ({ t with rows := t.rows.filter (fun x => !(x.id == n)) },
          ⟨200, msgObj e.deletedMsg⟩) := by
  unfold deleteHandler
  rw [parseIdParam_ok idStr n hid]
  rfl

theorem getHandler_miss (e : Entity) (idStr : String) (n : Int) (t : Table)
    (hid : castTextToInt idStr = some n) (hmiss : ∀ row ∈ t.rows, row.id ≠ n) :
    getHandler e none idStr t = Except.ok (t, ⟨404, msgObj e.notFoundMsg⟩) := by
  rw [getHandler_run e idStr n t hid, filter_eq_nil_of_no_match t.rows n hmiss]

theorem getHandler_hit (e : Entity) (idStr : String) (n : Int) (t : Table)
    (hid : castTextToInt idStr = some n) (row : Row) (hrow : row ∈ t.rows)
    (hn : row.id = n) :
    ∃ r2, getHandler e none idStr t = Except.ok (t, ⟨200, Json.obj (rowToObj e r2)⟩) := by
  have hne : t.rows.filter (fun x => x.id == n) ≠ [] :=
    List.ne_nil_of_mem (List.mem_filter.mpr ⟨hrow, by simp only [beq_iff_eq]; exact hn⟩)
  rcases hfil : t.rows.filter (fun x => x.id == n) with _ | ⟨r0, l0⟩
  · exact absurd hfil hne
  · refine ⟨r0, ?_⟩
    rw [getHandler_run e idStr n t hid, hfil]

theorem getHandler_hit_unique (e : Entity) (idStr : String) (n : Int) (t : Table)
    (hid : castTextToInt idStr = some n)
    (hnd : t.rows.Pairwise fun a b => a.id ≠ b.id) (row : Row) (hrow : row ∈ t.rows)
    (hn : row.id = n) :
    getHandler e none idStr t = Except.ok (t, ⟨200, Json.obj (rowToObj e row)⟩) := by
  rw [getHandler_run e idStr n t hid,
    filter_eq_single_of_pairwise t.rows row n hnd hrow hn]

theorem updateHandler_miss (e : Entity) (idStr : String) (n : Int) (body : JObj)
    (t : Table) (hid : castTextToInt idStr = some n)
    (hmiss : ∀ row ∈ t.rows, row.id ≠ n) :
    updateHandler e none idStr body t = Except.ok (t, ⟨404, msgObj e.notFoundMsg⟩) := by
  rw [updateHandler_run e idStr n body t hid, updateRows_no_match e body n t.rows hmiss,
    filter_eq_nil_of_no_match t.rows n hmiss]

theorem updateHandler_hit (e : Entity) (idStr : String) (n : Int) (body : JObj)
    (t : Table) (hid : castTextToInt idStr = some n) (row : Row) (hrow : row ∈ t.rows)
    (hn : row.id = n) :
    ∃ r2, updateHandler e none idStr body t =
      Except.ok ({ t with rows := updateRows e body n t.rows },
        ⟨200, Json.obj (rowToObj e r2)⟩) := by
  have hmem : updatedRow e body row ∈ updateRows e body n t.rows :=
    updateRows_mem_of_match e body n t.rows row hrow hn
  have hne : (updateRows e body n t.rows).filter (fun x => x.id == n) ≠ [] :=
    List.ne_nil_of_mem (List.mem_filter.mpr
      ⟨hmem, by simp only [beq_iff_eq, updatedRow_id]; exact hn⟩)
  rcases hfil : (updateRows e body n t.rows).filter (fun x => x.id == n) with _ | ⟨r0, l0⟩
  · exact absurd hfil hne
  · refine ⟨r0, ?_⟩
    rw [updateHandler_run e idStr n body t hid, hfil]

theorem updateHandler_hit_unique (e : Entity) (idStr : String) (n : Int) (body : JObj)
    (t : Table) (hid : castTextToInt idStr = some n)
    (hnd : t.rows.Pairwise fun a b => a.id ≠ b.id) (row : Row) (hrow : row ∈ t.rows)
    (hn : row.id = n) :
    updateHandler e none idStr body t =
      Except.ok ({ t with rows := updateRows e body n t.rows },
        ⟨200, Json.obj (rowToObj e (updatedRow e body row))⟩) := by
  rw [updateHandler_run e idStr n body t hid,
    updateRows_filter_single e body t.rows row n hnd hrow hn]

theorem deleteHandler_miss (e : Entity) (idStr : String) (n : Int) (t : Table)
    (hid : castTextToInt idStr = some n) (hmiss : ∀ row ∈ t.rows, row.id ≠ n) :
    deleteHandler e none idStr t = Except.ok (t, ⟨404, msgObj e.notFoundMsg⟩) := by
  rw [deleteHandler_run e idStr n t hid, filter_eq_nil_of_no_match t.rows n hmiss]

theorem deleteHandler_hit (e : Entity) (idStr : String) (n : Int) (t : Table)
    (hid : castTextToInt idStr = some n) (row : Row) (hrow : row ∈ t.rows)
    (hn : row.id = n) :
    deleteHandler e none idStr t =
      Except.ok ({ t with rows := t.rows.filter (fun x => !(x.id == n)) },
        ⟨200, msgObj e.deletedMsg⟩) := by
  have hne : t.rows.filter (fun x => x.id == n) ≠ [] :=
    List.ne_nil_of_mem (List.mem_filter.mpr ⟨hrow, by simp only [beq_iff_eq]; exact hn⟩)
  rcases hfil : t.rows.filter (fun x => x.id == n) with _ | ⟨r0, l0⟩
  · exact absurd hfil hne
  · rw [deleteHandler_run e idStr n t hid, hfil]

theorem DB.set_set (db : DB) (r : Resource) (t1 t2 : Table) :
    (db.set r t1).set r t2 = db.set r t2 := by
  cases r <;> rfl

theorem not_beq_true_iff (a b : Int) : (!(a == b)) = true ↔ a ≠ b := by
  simp [beq_iff_eq]

theorem updateCols_eq_cols (r : Resource) : r.entity.updateCols = r.entity.cols := by
  cases r <;> rfl

theorem insertCols_subset_cols (r : Resource) :
    ∀ c ∈ r.entity.insertCols, c ∈ r.entity.cols := by
  cases r <;> decide

theorem parseIdParam_fail (s : String) (h : castTextToInt s = none) :
    parseIdParam s = Except.error DbError.castFailure := by
  unfold parseIdParam
  rw [h]

theorem getHandler_castFail (e : Entity) (idStr : String) (t : Table)
    (h : castTextToInt idStr = none) :
    getHandler e none idStr t = Except.error DbError.castFailure := by
  unfold getHandler
  rw [parseIdParam_fail ((getByIdQuery e idStr).params.headD "") h]
  rfl

theorem updateHandler_castFail (e : Entity) (idStr : String) (body : JObj) (t : Table)
    (h : castTextToInt idStr = none) :
    updateHandler e none idStr body t = Except.error DbError.castFailure := by
  unfold updateHandler
  rw [parseIdParam_fail idStr h]
  rfl

theorem deleteHandler_castFail (e : Entity) (idStr : String) (t : Table)
    (h : castTextToInt idStr = none) :
    deleteHandler e none idStr t = Except.error DbError.castFailure := by
  unfold deleteHandler
  rw [parseIdParam_fail idStr h]
  rfl

theorem handleRequest_fault_shape (err : DbError) (req : Request) (db db2 : DB)
    (resp : Response)
    (h : handleRequest (some err) req db = AppResult.handled db2 resp) :
    resp = errorResponse ∧ db2 = db := by
  cases req with
  | list r =>
    simp only [handleRequest] at h
    by_cases hr : hasRoute r .get .root
    · rw [if_pos hr, dispatchTable_error db r err _
        (listHandler_fault r.entity err (db.get r))] at h
      injection h with h1 h2
      exact ⟨h2.symm, h1.symm⟩
    · rw [if_neg hr] at h
      exact AppResult.noConfusion h
  | getById r idStr =>
    rw [handleRequest_getById, dispatchTable_error db r err _
      (getHandler_fault r.entity err idStr (db.get r))] at h
    injection h with h1 h2
    exact ⟨h2.symm, h1.symm⟩
  | create r body =>
    rw [handleRequest_create, dispatchTable_error db r err _
      (createHandler_fault r.entity err body (db.get r))] at h
    injection h with h1 h2
    exact ⟨h2.symm, h1.symm⟩
  | update r idStr body =>
    rw [handleRequest_update, dispatchTable_error db r err _
      (updateHandler_fault r.entity err idStr body (db.get r))] at h
    injection h with h1 h2
    exact ⟨h2.symm, h1.symm⟩
  | deleteById r idStr =>
    rw [handleRequest_deleteById, dispatchTable_error db r err _
      (deleteHandler_fault r.entity err idStr (db.get r))] at h
    injection h with h1 h2
    exact ⟨h2.symm, h1.symm⟩

/-- C1, counterexample.  `POST /api/products` with body
`\x7b"product_name":"Widget","price":5\x7d` succeeds, but the created and
subsequently fetched row carries `price = NULL`, not the submitted
price 5: the product INSERT names only `product_name`, so the submitted
`price` is dropped.  The claim that the fetched row carries a submitted
price value is therefore false. -/
theorem product_create_drops_submitted_price :
    handleRequest none (Request.create Resource.products widgetBody) emptyDB =
      AppResult.handled dbAfterWidgetPost
        ⟨201, Json.obj [("product_id", SqlValue.int 1),
          ("product_name", SqlValue.str "Widget"), ("price", SqlValue.null)]⟩ ∧
    handleRequest none (Request.getById Resource.products "1") dbAfterWidgetPost =
      AppResult.handled dbAfterWidgetPost
        ⟨200, Json.obj [("product_id", SqlValue.int 1),
          ("product_name", SqlValue.str "Widget"), ("price", SqlValue.null)]⟩ ∧
    bodyGet widgetBody "price" = SqlValue.int 5 ∧
    rowGet widgetRow "price" = SqlValue.null ∧
    SqlValue.null ≠ SqlValue.int 5 := by
  refine ⟨?_, ?_, ?_, ?_, ?_⟩ <;> decide

/-- C1, amended: a successful `POST /api/E` followed by `GET /api/E/{id}`
with the generated identifier returns exactly the columns the INSERT
statement names (taken from the body) plus the generated identifier,
with every other column `NULL`.  For products the INSERT names only
`product_name`, so a submitted price is not carried to the row. -/
theorem create_then_get_returns_inserted_fields (r : Resource) (db : DB) (body : JObj)
    (idStr : String)
    (hid : castTextToInt idStr = some (db.get r).nextId)
    (hfresh : ∀ row ∈ (db.get r).rows, row.id ≠ (db.get r).nextId) :
    ∃ db2 : DB,
      handleRequest none (Request.create r body) db =
        AppResult.handled db2
          ⟨201, Json.obj (rowToObj r.entity (insertedRow r.entity body (db.get r).nextId))⟩ ∧
      handleRequest none (Request.getById r idStr) db2 =
        AppResult.handled db2
          ⟨200, Json.obj (rowToObj r.entity (insertedRow r.entity body (db.get r).nextId))⟩ ∧
      (∀ c ∈ r.entity.insertCols,
        rowGet (insertedRow r.entity body (db.get r).nextId) c = bodyGet body c) ∧
      ∀ c ∈ r.entity.cols, c ∉ r.entity.insertCols →
        rowGet (insertedRow r.entity body (db.get r).nextId) c = SqlValue.null := by
  refine ⟨db.set r ⟨(db.get r).nextId + 1,
    (db.get r).rows ++ [insertedRow r.entity body (db.get r).nextId]⟩, ?_, ?_, ?_, ?_⟩
  · have hact : createHandler r.entity none body (db.get r) =
        Except.ok (⟨(db.get r).nextId + 1,
          (db.get r).rows ++ [insertedRow r.entity body (db.get r).nextId]⟩,
          ⟨201, Json.obj (rowToObj r.entity (insertedRow r.entity body (db.get r).nextId))⟩) := rfl
    rw [handleRequest_create, dispatchTable_ok db r _ _ _ hact]
  · have hfil : ((db.get r).rows ++ [insertedRow r.entity body (db.get r).nextId]).filter
        (fun x => x.id == (db.get r).nextId) =
        [insertedRow r.entity body (db.get r).nextId] := by
      rw [List.filter_append, filter_eq_nil_of_no_match (db.get r).rows _ hfresh,
        List.filter_cons_of_pos (by simp only [beq_iff_eq, insertedRow_id])]
      rfl
    have hact : getHandler r.entity none idStr
        ⟨(db.get r).nextId + 1, (db.get r).rows ++ [insertedRow r.entity body (db.get r).nextId]⟩ =
        Except.ok (⟨(db.get r).nextId + 1,
          (db.get r).rows ++ [insertedRow r.entity body (db.get r).nextId]⟩,
          ⟨200, Json.obj (rowToObj r.entity (insertedRow r.entity body (db.get r).nextId))⟩) := by
      rw [getHandler_run r.entity idStr (db.get r).nextId _ hid]
      rw [show (Table.mk ((db.get r).nextId + 1)
        ((db.get r).rows ++ [insertedRow r.entity body (db.get r).nextId])).rows =
        (db.get r).rows ++ [insertedRow r.entity body (db.get r).nextId] from rfl, hfil]
    rw [handleRequest_getById, DB.get_set_self, dispatchTable_ok _ r _ _ _ hact, DB.set_set]
  · intro c hc
    rw [rowGet_insertedRow r.entity body (db.get r).nextId c (insertCols_subset_cols r c hc),
      if_pos hc]
  · intro c hc hnc
    rw [rowGet_insertedRow r.entity body (db.get r).nextId c hc, if_neg hnc]

/-- C1 witness for the amended claim: posting `widgetBody` into the
empty database and fetching id 1. -/
theorem create_then_get_returns_inserted_fields_witness :
    castTextToInt "1" = some (emptyDB.get Resource.products).nextId ∧
    (∀ row ∈ (emptyDB.get Resource.products).rows,
      row.id ≠ (emptyDB.get Resource.products).nextId) ∧
    ∃ db2 : DB,
      handleRequest none (Request.create Resource.products widgetBody) emptyDB =
        AppResult.handled db2
          ⟨201, Json.obj (rowToObj Resource.products.entity
            (insertedRow Resource.products.entity widgetBody
              (emptyDB.get Resource.products).nextId))⟩ ∧
      handleRequest none (Request.getById Resource.products "1") db2 =
        AppResult.handled db2
          ⟨200, Json.obj (rowToObj Resource.products.entity
            (insertedRow Resource.products.entity widgetBody
              (emptyDB.get Resource.products).nextId))⟩ ∧
      (∀ c ∈ Resource.products.entity.insertCols,
        rowGet (insertedRow Resource.products.entity widgetBody
          (emptyDB.get Resource.products).nextId) c = bodyGet widgetBody c) ∧
      ∀ c ∈ Resource.products.entity.cols, c ∉ Resource.products.entity.insertCols →
        rowGet (insertedRow Resource.products.entity widgetBody
          (emptyDB.get Resource.products).nextId) c = SqlValue.null :=
  ⟨by decide, by decide,
    create_then_get_returns_inserted_fields Resource.products emptyDB widgetBody "1"
      (by decide) (by decide)⟩

/-- C2: the countries router registers only four of the five operations;
no `GET '/'` (list) route exists, so `GET /api/countries` matches no
handler of this codebase and falls through to the framework default
instead of returning the array of country rows.  This contradicts the
router file's own swagger annotation, which documents `GET /countries`
as returning a JSON array of all countries. -/
theorem countries_list_route_missing :
    ¬ hasRoute Resource.countries Method.get Shape.root ∧
    handleRequest none (Request.list Resource.countries) emptyDB =
      AppResult.noRoute emptyDB ∧
    hasRoute Resource.countries Method.get Shape.byId ∧
    hasRoute Resource.countries Method.post Shape.root ∧
    hasRoute Resource.countries Method.put Shape.byId ∧
    hasRoute Resource.countries Method.delete Shape.byId ∧
    hasRoute Resource.products Method.get Shape.root := by
  refine ⟨?_, ?_, ?_, ?_, ?_, ?_, ?_⟩ <;> decide

/-- C3: for every resource with a list route, `GET /api/E` leaves the
database unchanged and returns status 200 with the JSON array of all
rows of E's table in ascending identifier order; the array length
equals the table's row count. -/
theorem list_returns_all_rows_in_ascending_id_order (r : Resource) (db : DB)
    (h : hasRoute r .get .root) :
    ∃ l : List Row,
      handleRequest none (Request.list r) db =
        AppResult.handled db ⟨200, Json.arr (l.map (rowToObj r.entity))⟩ ∧
      l.Perm (db.get r).rows ∧
      List.Sorted rowLe l ∧
      l.length = (db.get r).rows.length := by
  refine ⟨selectAllOrdered (db.get r), ?_, ?_, ?_, ?_⟩
  · have hact : listHandler r.entity none (db.get r) =
        Except.ok (db.get r,
          ⟨200, Json.arr ((selectAllOrdered (db.get r)).map (rowToObj r.entity))⟩) := rfl
    simp only [handleRequest]
    rw [if_pos h, dispatchTable_ok db r _ _ _ hact, DB.set_get_self]
  · exact List.perm_insertionSort rowLe (db.get r).rows
  · exact List.sorted_insertionSort rowLe (db.get r).rows
  · exact (List.perm_insertionSort rowLe (db.get r).rows).length_eq

/-- C3 witness: listing products over a database with one product row. -/
theorem list_returns_all_rows_in_ascending_id_order_witness :
    hasRoute Resource.products Method.get Shape.root ∧
    ∃ l : List Row,
      handleRequest none (Request.list Resource.products) dbAfterWidgetPost =
        AppResult.handled dbAfterWidgetPost
          ⟨200, Json.arr (l.map (rowToObj Resource.products.entity))⟩ ∧
      l.Perm (dbAfterWidgetPost.get Resource.products).rows ∧
      List.Sorted rowLe l ∧
      l.length = (dbAfterWidgetPost.get Resource.products).rows.length :=
  ⟨by decide,
    list_returns_all_rows_in_ascending_id_order Resource.products dbAfterWidgetPost
      (by decide)⟩

/-- C8: the get-by-id handler puts the path-supplied identifier into the
parameterized query exactly as received (no coercion, parsing or
validation happens in the handler), and equal identifier strings yield
the identical query. -/
theorem get_by_id_passes_identifier_verbatim (r : Resource) (idStr s2 : String) :
    (getByIdQuery r.entity idStr).params = [idStr] ∧
    (idStr = s2 → getByIdQuery r.entity idStr = getByIdQuery r.entity s2) :=
  ⟨rfl, fun h => by rw [h]⟩

/-- C8 witness: the product query for path id `"7"`. -/
theorem get_by_id_passes_identifier_verbatim_witness :
    (getByIdQuery Resource.products.entity "7").params = ["7"] ∧
    getByIdQuery Resource.products.entity "7" = getByIdQuery Resource.products.entity "7" :=
  ⟨(get_by_id_passes_identifier_verbatim Resource.products "7" "7").1,
    (get_by_id_passes_identifier_verbatim Resource.products "7" "7").2 rfl⟩

/-- C4: for every entity and every integer identifier that matches no
row, each of GET, PUT and DELETE on `/api/E/{id}` responds 404 with the
resource-specific not-found message (and leaves the database
unchanged); when some row matches, the 404 branch is not taken. -/
theorem id_operations_404_exactly_on_missing_id (op : IdOp) (r : Resource)
    (idStr : String) (n : Int) (db : DB)
    (hid : castTextToInt idStr = some n) :
    ((∀ row ∈ (db.get r).rows, row.id ≠ n) →
      handleRequest none (op.toRequest r idStr) db =
        AppResult.handled db ⟨404, msgObj r.entity.notFoundMsg⟩) ∧
    ∀ row ∈ (db.get r).rows, row.id = n →
      ∀ db2 resp, handleRequest none (op.toRequest r idStr) db =
        AppResult.handled db2 resp →
      resp.status ≠ 404 := by
  constructor
  · intro hmiss
    cases op with
    | fetch =>
      rw [IdOp.toRequest, handleRequest_getById, dispatchTable_ok db r _ _ _
        (getHandler_miss r.entity idStr n (db.get r) hid hmiss), DB.set_get_self]
    | change body =>
      rw [IdOp.toRequest, handleRequest_update, dispatchTable_ok db r _ _ _
        (updateHandler_miss r.entity idStr n body (db.get r) hid hmiss), DB.set_get_self]
    | remove =>
      rw [IdOp.toRequest, handleRequest_deleteById, dispatchTable_ok db r _ _ _
        (deleteHandler_miss r.entity idStr n (db.get r) hid hmiss), DB.set_get_self]
  · intro row hrow hn db2 resp h
    cases op with
    | fetch =>
      obtain ⟨r2, hact⟩ := getHandler_hit r.entity idStr n (db.get r) hid row hrow hn
      rw [IdOp.toRequest, handleRequest_getById,
        dispatchTable_ok db r _ _ _ hact] at h
      injection h with h1 h2
      subst h2
      show (200 : Nat) ≠ 404
      decide
    | change body =>
      obtain ⟨r2, hact⟩ := updateHandler_hit r.entity idStr n body (db.get r) hid row hrow hn
      rw [IdOp.toRequest, handleRequest_update,
        dispatchTable_ok db r _ _ _ hact] at h
      injection h with h1 h2
      subst h2
      show (200 : Nat) ≠ 404
      decide
    | remove =>
      rw [IdOp.toRequest, handleRequest_deleteById, dispatchTable_ok db r _ _ _
        (deleteHandler_hit r.entity idStr n (db.get r) hid row hrow hn)] at h
      injection h with h1 h2
      subst h2
      show (200 : Nat) ≠ 404
      decide

/-- C4 witness: fetching the absent product id 9 from the one-row
database responds 404 with the product message. -/
theorem id_operations_404_exactly_on_missing_id_witness :
    castTextToInt "9" = some 9 ∧
    (∀ row ∈ (dbAfterWidgetPost.get Resource.products).rows, row.id ≠ 9) ∧
    handleRequest none (IdOp.fetch.toRequest Resource.products "9") dbAfterWidgetPost =
      AppResult.handled dbAfterWidgetPost ⟨404, msgObj "Product not found"⟩ :=
  ⟨by decide, by decide,
    (id_operations_404_exactly_on_missing_id IdOp.fetch Resource.products "9" 9
      dbAfterWidgetPost (by decide)).1 (by decide)⟩

/-- C5: deleting an existing identifier responds 200 with the success
message (not the deleted row), removes exactly the matching row from the
table, and a subsequent GET of the same identifier responds 404. -/
theorem delete_existing_removes_row_then_404 (r : Resource) (db : DB)
    (idStr : String) (n : Int) (row : Row)
    (hid : castTextToInt idStr = some n)
    (hnd : (db.get r).rows.Pairwise fun a b => a.id ≠ b.id)
    (hrow : row ∈ (db.get r).rows) (hn : row.id = n) :
    ∃ db2 : DB,
      handleRequest none (Request.deleteById r idStr) db =
        AppResult.handled db2 ⟨200, msgObj r.entity.deletedMsg⟩ ∧
      (∀ x : Row, x ∈ (db2.get r).rows ↔ x ∈ (db.get r).rows ∧ x ≠ row) ∧
      handleRequest none (Request.getById r idStr) db2 =
        AppResult.handled db2 ⟨404, msgObj r.entity.notFoundMsg⟩ := by
  refine ⟨db.set r { db.get r with
    rows := (db.get r).rows.filter (fun x => !(x.id == n)) }, ?_, ?_, ?_⟩
  · rw [handleRequest_deleteById, dispatchTable_ok db r _ _ _
      (deleteHandler_hit r.entity idStr n (db.get r) hid row hrow hn)]
  · intro x
    rw [DB.get_set_self]
    show x ∈ (db.get r).rows.filter (fun y => !(y.id == n)) ↔ _
    rw [List.mem_filter]
    constructor
    · rintro ⟨hx, hxb⟩
      refine ⟨hx, fun he => ?_⟩
      exact (not_beq_true_iff x.id n).mp hxb (by rw [he, hn])
    · rintro ⟨hx, hxne⟩
      refine ⟨hx, (not_beq_true_iff x.id n).mpr fun he => ?_⟩
      exact hnd.forall (fun a b hab => Ne.symm hab) hx hrow hxne (he.trans hn.symm)
  · have hmiss2 : ∀ x ∈ (db.get r).rows.filter (fun y => !(y.id == n)), x.id ≠ n :=
      fun x hx => (not_beq_true_iff x.id n).mp (List.mem_filter.mp hx).2
    rw [handleRequest_getById, DB.get_set_self, dispatchTable_ok _ r _ _ _
      (getHandler_miss r.entity idStr n _ hid hmiss2), DB.set_set]

/-- C5 witness: deleting product 1 from the one-row database, then
fetching it. -/
theorem delete_existing_removes_row_then_404_witness :
    castTextToInt "1" = some 1 ∧
    ((dbAfterWidgetPost.get Resource.products).rows.Pairwise fun a b => a.id ≠ b.id) ∧
    widgetRow ∈ (dbAfterWidgetPost.get Resource.products).rows ∧
    widgetRow.id = 1 ∧
    ∃ db2 : DB,
      handleRequest none (Request.deleteById Resource.products "1") dbAfterWidgetPost =
        AppResult.handled db2 ⟨200, msgObj "Product deleted successfully"⟩ ∧
      (∀ x : Row, x ∈ (db2.get Resource.products).rows ↔
        x ∈ (dbAfterWidgetPost.get Resource.products).rows ∧ x ≠ widgetRow) ∧
      handleRequest none (Request.getById Resource.products "1") db2 =
        AppResult.handled db2 ⟨404, msgObj "Product not found"⟩ :=
  ⟨by decide, by simp [dbAfterWidgetPost, emptyDB, DB.get], by decide, by decide,
    delete_existing_removes_row_then_404 Resource.products dbAfterWidgetPost "1" 1
      widgetRow (by decide) (by simp [dbAfterWidgetPost, emptyDB, DB.get]) (by decide)
      (by decide)⟩

/-- C6: updating an existing identifier writes every mutable column of
the row from the request body (the SET clause names all non-key
columns), responds 200 with the post-update row, every named column of
the response equals the submitted body value, and a column omitted from
the body is overwritten with `NULL` rather than preserved. -/
theorem put_overwrites_all_mutable_fields (r : Resource) (db : DB) (idStr : String)
    (n : Int) (body : JObj) (row : Row)
    (hid : castTextToInt idStr = some n)
    (hnd : (db.get r).rows.Pairwise fun a b => a.id ≠ b.id)
    (hrow : row ∈ (db.get r).rows) (hn : row.id = n) :
    ∃ db2 : DB,
      handleRequest none (Request.update r idStr body) db =
        AppResult.handled db2
          ⟨200, Json.obj (rowToObj r.entity (updatedRow r.entity body row))⟩ ∧
      r.entity.updateCols = r.entity.cols ∧
      (∀ c ∈ r.entity.updateCols,
        rowGet (updatedRow r.entity body row) c = bodyGet body c) ∧
      ∀ c ∈ r.entity.updateCols, body.lookup c = none →
        rowGet (updatedRow r.entity body row) c = SqlValue.null := by
  refine ⟨db.set r { db.get r with
    rows := updateRows r.entity body n (db.get r).rows }, ?_, updateCols_eq_cols r, ?_, ?_⟩
  · rw [handleRequest_update, dispatchTable_ok db r _ _ _
      (updateHandler_hit_unique r.entity idStr n body (db.get r) hid hnd row hrow hn)]
  · intro c hc
    rw [rowGet_updatedRow r.entity body row c (updateCols_eq_cols r ▸ hc), if_pos hc]
  · intro c hc hnone
    rw [rowGet_updatedRow r.entity body row c (updateCols_eq_cols r ▸ hc), if_pos hc]
    show (body.lookup c).getD SqlValue.null = _
    rw [hnone]
    rfl

/-- C6 witness: updating product 1 with a body that names only
`product_name`; the omitted `price` is overwritten with `NULL`. -/
theorem put_overwrites_all_mutable_fields_witness :
    castTextToInt "1" = some 1 ∧
    ((dbAfterWidgetPost.get Resource.products).rows.Pairwise fun a b => a.id ≠ b.id) ∧
    widgetRow ∈ (dbAfterWidgetPost.get Resource.products).rows ∧
    widgetRow.id = 1 ∧
    ∃ db2 : DB,
      handleRequest none (Request.update Resource.products "1"
          [("product_name", SqlValue.str "Gadget")]) dbAfterWidgetPost =
        AppResult.handled db2
          ⟨200, Json.obj (rowToObj Resource.products.entity
            (updatedRow Resource.products.entity
              [("product_name", SqlValue.str "Gadget")] widgetRow))⟩ ∧
      Resource.products.entity.updateCols = Resource.products.entity.cols ∧
      (∀ c ∈ Resource.products.entity.updateCols,
        rowGet (updatedRow Resource.products.entity
          [("product_name", SqlValue.str "Gadget")] widgetRow) c =
          bodyGet [("product_name", SqlValue.str "Gadget")] c) ∧
      ∀ c ∈ Resource.products.entity.updateCols,
        List.lookup c [("product_name", SqlValue.str "Gadget")] = none →
        rowGet (updatedRow Resource.products.entity
          [("product_name", SqlValue.str "Gadget")] widgetRow) c = SqlValue.null :=
  ⟨by decide, by simp [dbAfterWidgetPost, emptyDB, DB.get], by decide, by decide,
    put_overwrites_all_mutable_fields Resource.products dbAfterWidgetPost "1" 1
      [("product_name", SqlValue.str "Gadget")] widgetRow (by decide)
      (by simp [dbAfterWidgetPost, emptyDB, DB.get]) (by decide) (by decide)⟩

/-- C7: whenever the database call of any handler raises a fault, the
handler forwards it to the single fault boundary, which responds
status 500 with the one fixed message `Internal Server Error`; the
response is the same constant for every fault, so nothing of the
specific cause reaches the client, and the database is unchanged. -/
theorem fault_reaches_boundary_as_generic_500 (err : DbError) (req : Request)
    (db db2 : DB) (resp : Response)
    (h : handleRequest (some err) req db = AppResult.handled db2 resp) :
    resp = errorResponse ∧ resp.status = 500 ∧
    resp.body = msgObj "Internal Server Error" ∧ db2 = db := by
  obtain ⟨h1, h2⟩ := handleRequest_fault_shape err req db db2 resp h
  subst h1
  exact ⟨rfl, rfl, rfl, h2⟩

/-- C7 witness: a driver fault during the product list request. -/
theorem fault_reaches_boundary_as_generic_500_witness :
    handleRequest (some (DbError.driver "connection refused"))
      (Request.list Resource.products) emptyDB =
      AppResult.handled emptyDB errorResponse ∧
    (errorResponse = errorResponse ∧ errorResponse.status = 500 ∧
      errorResponse.body = msgObj "Internal Server Error" ∧ emptyDB = emptyDB) :=
  ⟨by decide,
    fault_reaches_boundary_as_generic_500 (DbError.driver "connection refused")
      (Request.list Resource.products) emptyDB emptyDB errorResponse (by decide)⟩

/-- C9: update-by-id and delete-by-id touch only the row whose
identifier matches: every other table of the database is unchanged, the
table's id sequence is unchanged, and the sublist of rows whose
identifier differs from the requested one is byte-for-byte unchanged. -/
theorem update_delete_touch_only_the_matching_row (r : Resource) (db : DB)
    (idStr : String) (n : Int) (body : JObj)
    (hid : castTextToInt idStr = some n) :
    (∀ db2 resp, handleRequest none (Request.update r idStr body) db =
        AppResult.handled db2 resp →
      (∀ r2, r2 ≠ r → db2.get r2 = db.get r2) ∧
      (db2.get r).nextId = (db.get r).nextId ∧
      (db2.get r).rows.filter (fun x => !(x.id == n)) =
        (db.get r).rows.filter (fun x => !(x.id == n))) ∧
    ∀ db2 resp, handleRequest none (Request.deleteById r idStr) db =
        AppResult.handled db2 resp →
      (∀ r2, r2 ≠ r → db2.get r2 = db.get r2) ∧
      (db2.get r).nextId = (db.get r).nextId ∧
      (db2.get r).rows.filter (fun x => !(x.id == n)) =
        (db.get r).rows.filter (fun x => !(x.id == n)) := by
  constructor
  · intro db2 resp h
    have hact : ∃ resp2, updateHandler r.entity none idStr body (db.get r) =
        Except.ok ({ db.get r with rows := updateRows r.entity body n (db.get r).rows },
          resp2) := by
      rw [updateHandler_run r.entity idStr n body (db.get r) hid]
      rcases hfil2 : (updateRows r.entity body n (db.get r).rows).filter
          (fun x => x.id == n) with _ | ⟨r0, l0⟩
      · rw [hfil2]
        exact ⟨_, rfl⟩
      · rw [hfil2]
        exact ⟨_, rfl⟩
    obtain ⟨resp2, hact⟩ := hact
    rw [handleRequest_update, dispatchTable_ok db r _ _ _ hact] at h
    injection h with h1 h2
    subst h1
    refine ⟨fun r2 hne => DB.get_set_ne db r r2 _ hne, ?_, ?_⟩
    · rw [DB.get_set_self]
    · rw [DB.get_set_self]
      exact updateRows_filter_ne r.entity body n (db.get r).rows
  · intro db2 resp h
    rw [handleRequest_deleteById] at h
    rcases hfil : (db.get r).rows.filter (fun x => x.id == n) with _ | ⟨r0, l0⟩
    · have hact : deleteHandler r.entity none idStr (db.get r) =
          Except.ok (db.get r, ⟨404, msgObj r.entity.notFoundMsg⟩) := by
        rw [deleteHandler_run r.entity idStr n (db.get r) hid, hfil]
      rw [dispatchTable_ok db r _ _ _ hact, DB.set_get_self] at h
      injection h with h1 h2
      subst h1
      exact ⟨fun r2 _ => rfl, rfl, rfl⟩
    · have hact : deleteHandler r.entity none idStr (db.get r) =
          Except.ok ({ db.get r with
            rows := (db.get r).rows.filter (fun x => !(x.id == n)) },
            ⟨200, msgObj r.entity.deletedMsg⟩) := by
        rw [deleteHandler_run r.entity idStr n (db.get r) hid, hfil]
      rw [dispatchTable_ok db r _ _ _ hact] at h
      injection h with h1 h2
      subst h1
      refine ⟨fun r2 hne => DB.get_set_ne db r r2 _ hne, ?_, ?_⟩
      · rw [DB.get_set_self]
      · rw [DB.get_set_self]
        exact filter_ne_idem (db.get r).rows n

/-- C9 witness: deleting product 1 from the one-row database leaves the
other three tables, the id sequence and the non-matching rows as they
were. -/
theorem update_delete_touch_only_the_matching_row_witness :
    castTextToInt "1" = some 1 ∧
    handleRequest none (Request.deleteById Resource.products "1") dbAfterWidgetPost =
      AppResult.handled (dbAfterWidgetPost.set Resource.products ⟨2, []⟩)
        ⟨200, msgObj "Product deleted successfully"⟩ ∧
    ((∀ r2, r2 ≠ Resource.products →
        (dbAfterWidgetPost.set Resource.products ⟨2, []⟩).get r2 =
          dbAfterWidgetPost.get r2) ∧
      ((dbAfterWidgetPost.set Resource.products ⟨2, []⟩).get Resource.products).nextId =
        (dbAfterWidgetPost.get Resource.products).nextId ∧
      ((dbAfterWidgetPost.set Resource.products ⟨2, []⟩).get
          Resource.products).rows.filter (fun x => !(x.id == 1)) =
        (dbAfterWidgetPost.get Resource.products).rows.filter (fun x => !(x.id == 1))) :=
  ⟨by decide, by decide,
    (update_delete_touch_only_the_matching_row Resource.products dbAfterWidgetPost "1" 1
      [] (by decide)).2 (dbAfterWidgetPost.set Resource.products ⟨2, []⟩)
      ⟨200, msgObj "Product deleted successfully"⟩ (by decide)⟩

/-- C10: every request that a handler of this codebase answers yields
exactly one response, and it is one of three shapes: a success JSON
response (status 200 or 201), a 404 JSON response carrying a `message`
field, or the fault boundary's fixed 500 response. -/
theorem handled_response_is_success_404_or_500 (fault : Option DbError) (req : Request)
    (db db2 : DB) (resp : Response)
    (h : handleRequest fault req db = AppResult.handled db2 resp) :
    (resp.status = 200 ∨ resp.status = 201) ∨
    (resp.status = 404 ∧ ∃ m, resp.body = msgObj m) ∨
    resp = errorResponse := by
  cases fault with
  | some err =>
    exact Or.inr (Or.inr (handleRequest_fault_shape err req db db2 resp h).1)
  | none =>
    cases req with
    | list r =>
      simp only [handleRequest] at h
      by_cases hr : hasRoute r .get .root
      · rw [if_pos hr, dispatchTable_ok db r _ _ _
          (show listHandler r.entity none (db.get r) = Except.ok (db.get r,
            ⟨200, Json.arr ((selectAllOrdered (db.get r)).map (rowToObj r.entity))⟩)
            from rfl)] at h
        injection h with h1 h2
        subst h2
        exact Or.inl (Or.inl rfl)
      · rw [if_neg hr] at h
        exact AppResult.noConfusion h
    | getById r idStr =>
      rw [handleRequest_getById] at h
      rcases hcast : castTextToInt idStr with _ | n
      · rw [dispatchTable_error db r DbError.castFailure _
          (getHandler_castFail r.entity idStr (db.get r) hcast)] at h
        injection h with h1 h2
        exact Or.inr (Or.inr h2.symm)
      · rcases hfil : (db.get r).rows.filter (fun x => x.id == n) with _ | ⟨r0, l0⟩
        · have hact : getHandler r.entity none idStr (db.get r) =
              Except.ok (db.get r, ⟨404, msgObj r.entity.notFoundMsg⟩) := by
            rw [getHandler_run r.entity idStr n (db.get r) hcast, hfil]
          rw [dispatchTable_ok db r _ _ _ hact] at h
          injection h with h1 h2
          subst h2
          exact Or.inr (Or.inl ⟨rfl, r.entity.notFoundMsg, rfl⟩)
        · have hact : getHandler r.entity none idStr (db.get r) =
              Except.ok (db.get r, ⟨200, Json.obj (rowToObj r.entity r0)⟩) := by
            rw [getHandler_run r.entity idStr n (db.get r) hcast, hfil]
          rw [dispatchTable_ok db r _ _ _ hact] at h
          injection h with h1 h2
          subst h2
          exact Or.inl (Or.inl rfl)
    | create r body =>
      rw [handleRequest_create, dispatchTable_ok db r _ _ _
        (show createHandler r.entity none body (db.get r) =
          Except.ok (⟨(db.get r).nextId + 1,
            (db.get r).rows ++ [insertedRow r.entity body (db.get r).nextId]⟩,
            ⟨201, Json.obj (rowToObj r.entity (insertedRow r.entity body (db.get r).nextId))⟩)
          from rfl)] at h
      injection h with h1 h2
      subst h2
      exact Or.inl (Or.inr rfl)
    | update r idStr body =>
      rw [handleRequest_update] at h
      rcases hcast : castTextToInt idStr with _ | n
      · rw [dispatchTable_error db r DbError.castFailure _
          (updateHandler_castFail r.entity idStr body (db.get r) hcast)] at h
        injection h with h1 h2
        exact Or.inr (Or.inr h2.symm)
      · rcases hfil : (updateRows r.entity body n (db.get r).rows).filter
            (fun x => x.id == n) with _ | ⟨r0, l0⟩
        · have hact : updateHandler r.entity none idStr body (db.get r) =
              Except.ok ({ db.get r with
                rows := updateRows r.entity body n (db.get r).rows },
                ⟨404, msgObj r.entity.notFoundMsg⟩) := by
            rw [updateHandler_run r.entity idStr n body (db.get r) hcast, hfil]
          rw [dispatchTable_ok db r _ _ _ hact] at h
          injection h with h1 h2
          subst h2
          exact Or.inr (Or.inl ⟨rfl, r.entity.notFoundMsg, rfl⟩)
        · have hact : updateHandler r.entity none idStr body (db.get r) =
              Except.ok ({ db.get r with
                rows := updateRows r.entity body n (db.get r).rows },
                ⟨200, Json.obj (rowToObj r.entity r0)⟩) := by
            rw [updateHandler_run r.entity idStr n body (db.get r) hcast, hfil]
          rw [dispatchTable_ok db r _ _ _ hact] at h
          injection h with h1 h2
          subst h2
          exact Or.inl (Or.inl rfl)
    | deleteById r idStr =>
      rw [handleRequest_deleteById] at h
      rcases hcast : castTextToInt idStr with _ | n
      · rw [dispatchTable_error db r DbError.castFailure _
          (deleteHandler_castFail r.entity idStr (db.get r) hcast)] at h
        injection h with h1 h2
        exact Or.inr (Or.inr h2.symm)
      · rcases hfil : (db.get r).rows.filter (fun x => x.id == n) with _ | ⟨r0, l0⟩
        · have hact : deleteHandler r.entity none idStr (db.get r) =
              Except.ok (db.get r, ⟨404, msgObj r.entity.notFoundMsg⟩) := by
            rw [deleteHandler_run r.entity idStr n (db.get r) hcast, hfil]
          rw [dispatchTable_ok db r _ _ _ hact] at h
          injection h with h1 h2
          subst h2
          exact Or.inr (Or.inl ⟨rfl, r.entity.notFoundMsg, rfl⟩)
        · have hact : deleteHandler r.entity none idStr (db.get r) =
              Except.ok ({ db.get r with
                rows := (db.get r).rows.filter (fun x => !(x.id == n)) },
                ⟨200, msgObj r.entity.deletedMsg⟩) := by
            rw [deleteHandler_run r.entity idStr n (db.get r) hcast, hfil]
          rw [dispatchTable_ok db r _ _ _ hact] at h
          injection h with h1 h2
          subst h2
          exact Or.inl (Or.inl rfl)

/-- C10 witness: the product list request over the empty database. -/
theorem handled_response_is_success_404_or_500_witness :
    handleRequest none (Request.list Resource.products) emptyDB =
      AppResult.handled emptyDB ⟨200, Json.arr []⟩ ∧
    (((⟨200, Json.arr []⟩ : Response).status = 200 ∨
        (⟨200, Json.arr []⟩ : Response).status = 201) ∨
      ((⟨200, Json.arr []⟩ : Response).status = 404 ∧
        ∃ m, (⟨200, Json.arr []⟩ : Response).body = msgObj m) ∨
      (⟨200, Json.arr []⟩ : Response) = errorResponse) :=
  ⟨by decide,
    handled_response_is_success_404_or_500 none (Request.list Resource.products)
      emptyDB emptyDB ⟨200, Json.arr []⟩ (by decide)⟩

end ShopEase
